import Mathlib

/-!
Shallow embedding of the candle accumulator of `hk-trading`

Source files embedded:
* `src/rust-lib/hk-trading/src/data/data_source.rs` — the `Resolution`
  enumeration with its `to_seconds` / `to_milliseconds` / `from_seconds`
  conversions;
* `src/rust-lib/hk-trading/src/data/candle.rs` — the `Candle` value object and
  the `Candles` columnar accumulator with `push_candle`, the lazy
  `detect_time_desc` / `detect_resolution` inference, and the per-column
  setters.

Embedding conventions:
* `chrono::DateTime<Utc>` is embedded as an `Int`: the number of milliseconds
  since the Unix epoch.  `DateTime::timestamp_millis()` is then the identity,
  comparison (`>`) of instants is integer comparison, and the difference of two
  instants (a `chrono::Duration`) is the signed difference in milliseconds.
  `Duration::num_seconds` truncates toward zero, which is `Int.tdiv · 1000`.
* `f64` price fields are embedded as `Float`; the accumulator only stores and
  moves them, it never computes with them.
* Rust's `&mut self` methods become state-passing functions; `push_candle`,
  which mutates `self` and returns `Result<&mut Self, HkError>`, becomes a
  function returning `Option HkError × Candles`: the first component is the
  error (if any) and the second the state after the call.  Every `return Err`
  in the source happens before any mutation, which the embedding renders by
  returning the input state unchanged in those branches.
* `HkError` is not defined under the staged sources (`errors.rs` only defines
  `TaError`); the two variants used by `candle.rs` — `InvalidParameter` and
  `HkDataError(String)` — are reconstructed from their uses there.
-/

namespace HkTrading

/-- Embedding of `chrono::Duration::num_seconds` for a duration given as a whole number of
milliseconds: the number of whole seconds, truncated toward zero
(Rust/chrono semantics, i.e. T-division). -/
def num_seconds (millis : Int) : Int :=
  Int.tdiv millis 1000

/-- The `Resolution` enumeration of `data_source.rs`: the fixed catalog of
supported sampling periods. -/
inductive Resolution where
  | M1
  | M5
  | M15
  | M30
  | H1
  | H4
  | D1
  | W1
deriving DecidableEq, Repr

/-- Rust `Resolution::to_seconds`. -/
def Resolution.to_seconds : Resolution → Int
  | .M1 => 60
  | .M5 => 300
  | .M15 => 900
  | .M30 => 1800
  | .H1 => 3600
  | .H4 => 14400
  | .D1 => 86400
  | .W1 => 604800

/-- Rust `Resolution::to_milliseconds`. -/
def Resolution.to_milliseconds (r : Resolution) : Int :=
  r.to_seconds * 1000

/-- Rust `Resolution::from_seconds`: the variant whose `to_seconds` exactly equals
the argument, else `None`. -/
def Resolution.from_seconds (seconds : Int) : Option Resolution :=
  if seconds = 60 then some .M1
  else if seconds = 300 then some .M5
  else if seconds = 900 then some .M15
  else if seconds = 1800 then some .M30
  else if seconds = 3600 then some .H1
  else if seconds = 14400 then some .H4
  else if seconds = 86400 then some .D1
  else if seconds = 604800 then some .W1
  else none

/-- The error type used by `Candles::push_candle` in `candle.rs`.  The enum
`HkError` itself is not among the staged sources; its two variants used there
(`HkError::InvalidParameter` and `HkError::HkDataError(String)`) are
reconstructed from those uses. -/
inductive HkError where
  | InvalidParameter
  | HkDataError (msg : String)
deriving DecidableEq, Repr

/-- The `Candle` value object of `candle.rs`.  The Rust field `open` is a Lean
keyword, so it is written `open'` here; `open_time` is an instant in
milliseconds since the epoch (see the embedding conventions above). -/
structure Candle where
  open_time : Int
  open' : Float
  high : Float
  low : Float
  close : Float
  volume : Option Float
  trade_count : Option Float

/-- The `Candles` columnar accumulator of `candle.rs`: seven parallel column
sequences plus the two lazily inferred cached facts `time_desc` (the
private field behind the `time_desc()` accessor: `some true` = Descending,
`some false` = Ascending, `none` = unknown) and `resolution`. -/
structure Candles where
  open_times : List Int
  opens : List Float
  highs : List Float
  lows : List Float
  closes : List Float
  volumes : List (Option Float)
  trade_count : List (Option Float)
  time_desc : Option Bool
  resolution : Option Resolution

/-- Rust `Candles::new()`: empty columns, no cached facts. -/
def Candles.new : Candles where
  open_times := []
  opens := []
  highs := []
  lows := []
  closes := []
  volumes := []
  trade_count := []
  time_desc := none
  resolution := none

/-- Rust `Candles::set_open_times`. -/
def Candles.set_open_times (s : Candles) (open_times : List Int) : Candles :=
  { s with open_times := open_times }

/-- Rust `Candles::set_opens`. -/
def Candles.set_opens (s : Candles) (opens : List Float) : Candles :=
  { s with opens := opens }

/-- Rust `Candles::set_highs`. -/
def Candles.set_highs (s : Candles) (highs : List Float) : Candles :=
  { s with highs := highs }

/-- Rust `Candles::set_lows`. -/
def Candles.set_lows (s : Candles) (lows : List Float) : Candles :=
  { s with lows := lows }

/-- Rust `Candles::set_closes`. -/
def Candles.set_closes (s : Candles) (closes : List Float) : Candles :=
  { s with closes := closes }

/-- Rust `Candles::set_volumes`. -/
def Candles.set_volumes (s : Candles) (volumes : List (Option Float)) : Candles :=
  { s with volumes := volumes }

/-- Rust `Candles::detect_time_desc`: if `time_desc` is still unset and more than
one timestamp exists, cache whether `open_times[0] > open_times[1]`
(strict comparison: `true` = Descending). -/
def Candles.detect_time_desc (s : Candles) : Candles :=
  if s.time_desc = none then
    { s with time_desc :=
        if s.open_times.length > 1 then
          some (decide (s.open_times.getD 0 0 > s.open_times.getD 1 0))
        else none }
  else s

/-- Rust `Candles::detect_resolution`: if `resolution` is still unset and at least
two timestamps exist, cache the `Resolution::from_seconds` lookup of the
signed difference `open_times[0] - open_times[1]` in whole seconds. -/
def Candles.detect_resolution (s : Candles) : Candles :=
  if s.resolution = none then
    { s with resolution :=
        if s.open_times.length ≥ 2 then
          Resolution.from_seconds (num_seconds
            (s.open_times.getD 0 0 - s.open_times.getD 1 0))
        else none }
  else s

/-- The mutation part of `Candles::push_candle` after the continuity check
passed: push each field of the candle onto its column in lock-step. -/
def Candles.push_columns (s : Candles) (c : Candle) : Candles :=
  { s with
    open_times := s.open_times ++ [c.open_time]
    opens := s.opens ++ [c.open']
    highs := s.highs ++ [c.high]
    lows := s.lows ++ [c.low]
    closes := s.closes ++ [c.close]
    volumes := s.volumes ++ [c.volume]
    trade_count := s.trade_count ++ [c.trade_count] }

/-- Rust `Candles::push_candle`: the continuity check on `time_desc()` (each Rust
`return Err(..)` leaves the state untouched), then the seven column pushes,
then `detect_resolution()` followed by `detect_time_desc()`.  The Rust guard
`open_times.len() > 0` and the inner mismatch test
`last.timestamp_millis() - candle.open_time.timestamp_millis() != 0` are
rendered as one conjunction (the Rust code falls through to the push when
either fails). -/
def Candles.push_candle (s : Candles) (c : Candle) : Option HkError × Candles :=
  match s.time_desc with
  | some true =>
    if s.open_times.length > 0 ∧ s.open_times.getD 0 0 - c.open_time ≠ 0 then
      (some HkError.InvalidParameter, s)
    else
      (none, ((s.push_columns c).detect_resolution).detect_time_desc)
  | some false =>
    if s.open_times.length > 0 ∧
        s.open_times.getD (s.open_times.length - 1) 0 - c.open_time ≠ 0 then
      (some (HkError.HkDataError ""), s)
    else
      (none, ((s.push_columns c).detect_resolution).detect_time_desc)
  | none =>
    if s.open_times.length ≥ 2 then
      (some (HkError.HkDataError "failed to detect the time order for candles"), s)
    else
      (none, ((s.push_columns c).detect_resolution).detect_time_desc)

/-- Rust `Candles::get_last_close_time`. -/
def Candles.get_last_close_time (s : Candles) : Option Int :=
  if s.open_times.length > 0 then some (s.open_times.getD 0 0) else none

/-- Rust `Candles::get_oldest_close_time`. -/
def Candles.get_oldest_close_time (s : Candles) : Option Int :=
  if s.open_times.length > 0 then
    some (s.open_times.getD (s.open_times.length - 1) 0)
  else none

/-- Run a sequence of `push_candle` calls against a starting state, keeping the
(unchanged) state whenever a call fails — the caller keeps the same `&mut`
series across calls in Rust. -/
def Candles.run_pushes (s : Candles) : List Candle → Candles
  | [] => s
  | c :: cs => Candles.run_pushes (s.push_candle c).2 cs

/-- A series built from `Candles::new()` by a sequence of `push_candle`
calls. -/
def run_candles (cs : List Candle) : Candles :=
  Candles.new.run_pushes cs

/-- Invariant I1 of the spec: the seven column sequences have one common
length. -/
def Candles.sameLengths (s : Candles) : Prop :=
  s.opens.length = s.open_times.length ∧
  s.highs.length = s.open_times.length ∧
  s.lows.length = s.open_times.length ∧
  s.closes.length = s.open_times.length ∧
  s.volumes.length = s.open_times.length ∧
  s.trade_count.length = s.open_times.length

instance (s : Candles) : Decidable s.sameLengths := by
  unfold Candles.sameLengths
  infer_instance

/-- The boundary timestamp the continuity check compares against: index 0 when
Descending (`desc = true`), the last index when Ascending. -/
def Candles.boundary_time (s : Candles) : Bool → Int
  | true => s.open_times.getD 0 0
  | false => s.open_times.getD (s.open_times.length - 1) 0

/-- The error a continuity violation raises in `push_candle`, per direction:
`InvalidParameter` on the Descending path, the generic data error with an
empty message on the Ascending path. -/
def not_contiguous_error : Bool → HkError
  | true => HkError.InvalidParameter
  | false => HkError.HkDataError ""

/-- The error `push_candle` raises when the direction is still undetermined
but the series already holds at least two candles. -/
def direction_indeterminate_error : HkError :=
  HkError.HkDataError "failed to detect the time order for candles"

/-- A concrete candle with the given open time (milliseconds) and fixed
price/volume payload, for concrete runs. -/
def mkCandle (t : Int) : Candle where
  open_time := t
  open' := 1.0
  high := 1.0
  low := 1.0
  close := 1.0
  volume := none
  trade_count := none

/-! ## Helper lemmas: projections of the inference passes and of the pushes -/

@[simp]
theorem detect_resolution_open_times (s : Candles) :
    s.detect_resolution.open_times = s.open_times := by
  unfold Candles.detect_resolution
  split <;> rfl

@[simp]
theorem detect_resolution_opens (s : Candles) :
    s.detect_resolution.opens = s.opens := by
  unfold Candles.detect_resolution
  split <;> rfl

@[simp]
theorem detect_resolution_highs (s : Candles) :
    s.detect_resolution.highs = s.highs := by
  unfold Candles.detect_resolution
  split <;> rfl

@[simp]
theorem detect_resolution_lows (s : Candles) :
    s.detect_resolution.lows = s.lows := by
  unfold Candles.detect_resolution
  split <;> rfl

@[simp]
theorem detect_resolution_closes (s : Candles) :
    s.detect_resolution.closes = s.closes := by
  unfold Candles.detect_resolution
  split <;> rfl

@[simp]
theorem detect_resolution_volumes (s : Candles) :
    s.detect_resolution.volumes = s.volumes := by
  unfold Candles.detect_resolution
  split <;> rfl

@[simp]
theorem detect_resolution_trade_count (s : Candles) :
    s.detect_resolution.trade_count = s.trade_count := by
  unfold Candles.detect_resolution
  split <;> rfl

@[simp]
theorem detect_resolution_time_desc (s : Candles) :
    s.detect_resolution.time_desc = s.time_desc := by
  unfold Candles.detect_resolution
  split <;> rfl

@[simp]
theorem detect_time_desc_open_times (s : Candles) :
    s.detect_time_desc.open_times = s.open_times := by
  unfold Candles.detect_time_desc
  split <;> rfl

@[simp]
theorem detect_time_desc_opens (s : Candles) :
    s.detect_time_desc.opens = s.opens := by
  unfold Candles.detect_time_desc
  split <;> rfl

@[simp]
theorem detect_time_desc_highs (s : Candles) :
    s.detect_time_desc.highs = s.highs := by
  unfold Candles.detect_time_desc
  split <;> rfl

@[simp]
theorem detect_time_desc_lows (s : Candles) :
    s.detect_time_desc.lows = s.lows := by
  unfold Candles.detect_time_desc
  split <;> rfl

@[simp]
theorem detect_time_desc_closes (s : Candles) :
    s.detect_time_desc.closes = s.closes := by
  unfold Candles.detect_time_desc
  split <;> rfl

@[simp]
theorem detect_time_desc_volumes (s : Candles) :
    s.detect_time_desc.volumes = s.volumes := by
  unfold Candles.detect_time_desc
  split <;> rfl

@[simp]
theorem detect_time_desc_trade_count (s : Candles) :
    s.detect_time_desc.trade_count = s.trade_count := by
  unfold Candles.detect_time_desc
  split <;> rfl

@[simp]
theorem detect_time_desc_resolution (s : Candles) :
    s.detect_time_desc.resolution = s.resolution := by
  unfold Candles.detect_time_desc
  split <;> rfl

theorem detect_time_desc_of_some {s : Candles} {d : Bool} (h : s.time_desc = some d) :
    s.detect_time_desc.time_desc = some d := by
  unfold Candles.detect_time_desc
  rw [if_neg (by simp [h])]
  exact h

theorem detect_time_desc_of_none {s : Candles} (h : s.time_desc = none) :
    s.detect_time_desc.time_desc =
      if s.open_times.length > 1 then
        some (decide (s.open_times.getD 0 0 > s.open_times.getD 1 0))
      else none := by
  unfold Candles.detect_time_desc
  rw [if_pos h]

theorem detect_resolution_of_some {s : Candles} {r : Resolution}
    (h : s.resolution = some r) : s.detect_resolution.resolution = some r := by
  unfold Candles.detect_resolution
  rw [if_neg (by simp [h])]
  exact h

theorem detect_resolution_of_none {s : Candles} (h : s.resolution = none) :
    s.detect_resolution.resolution =
      if s.open_times.length ≥ 2 then
        Resolution.from_seconds (num_seconds
          (s.open_times.getD 0 0 - s.open_times.getD 1 0))
      else none := by
  unfold Candles.detect_resolution
  rw [if_pos h]

/-! ## Helper lemmas: the three branches of `push_candle` -/

/-- The state `push_candle` produces when the continuity check passes. -/
def Candles.push_ok_state (s : Candles) (c : Candle) : Candles :=
  ((s.push_columns c).detect_resolution).detect_time_desc

theorem push_candle_of_none {s : Candles} (c : Candle) (h : s.time_desc = none) :
    s.push_candle c =
      if 2 ≤ s.open_times.length then
        (some (HkError.HkDataError "failed to detect the time order for candles"), s)
      else (none, s.push_ok_state c) := by
  unfold Candles.push_candle
  rw [h]
  rfl

theorem push_candle_of_desc {s : Candles} (c : Candle) (h : s.time_desc = some true) :
    s.push_candle c =
      if s.open_times.length > 0 ∧ s.open_times.getD 0 0 - c.open_time ≠ 0 then
        (some HkError.InvalidParameter, s)
      else (none, s.push_ok_state c) := by
  unfold Candles.push_candle
  rw [h]
  rfl

theorem push_candle_of_asc {s : Candles} (c : Candle) (h : s.time_desc = some false) :
    s.push_candle c =
      if s.open_times.length > 0 ∧
          s.open_times.getD (s.open_times.length - 1) 0 - c.open_time ≠ 0 then
        (some (HkError.HkDataError ""), s)
      else (none, s.push_ok_state c) := by
  unfold Candles.push_candle
  rw [h]
  rfl


@[simp]
theorem push_columns_open_times (s : Candles) (c : Candle) :
    (s.push_columns c).open_times = s.open_times ++ [c.open_time] := rfl

@[simp]
theorem push_columns_opens (s : Candles) (c : Candle) :
    (s.push_columns c).opens = s.opens ++ [c.open'] := rfl

@[simp]
theorem push_columns_highs (s : Candles) (c : Candle) :
    (s.push_columns c).highs = s.highs ++ [c.high] := rfl

@[simp]
theorem push_columns_lows (s : Candles) (c : Candle) :
    (s.push_columns c).lows = s.lows ++ [c.low] := rfl

@[simp]
theorem push_columns_closes (s : Candles) (c : Candle) :
    (s.push_columns c).closes = s.closes ++ [c.close] := rfl

@[simp]
theorem push_columns_volumes (s : Candles) (c : Candle) :
    (s.push_columns c).volumes = s.volumes ++ [c.volume] := rfl

@[simp]
theorem push_columns_trade_count (s : Candles) (c : Candle) :
    (s.push_columns c).trade_count = s.trade_count ++ [c.trade_count] := rfl

@[simp]
theorem push_columns_time_desc (s : Candles) (c : Candle) :
    (s.push_columns c).time_desc = s.time_desc := rfl

@[simp]
theorem push_columns_resolution (s : Candles) (c : Candle) :
    (s.push_columns c).resolution = s.resolution := rfl

theorem push_ok_state_open_times (s : Candles) (c : Candle) :
    (s.push_ok_state c).open_times = s.open_times ++ [c.open_time] := by
  simp [Candles.push_ok_state]

theorem push_ok_state_time_desc_of_some {s : Candles} {d : Bool} (c : Candle)
    (h : s.time_desc = some d) : (s.push_ok_state c).time_desc = some d := by
  unfold Candles.push_ok_state
  exact detect_time_desc_of_some (by simp [h])

theorem push_ok_state_time_desc_of_none {s : Candles} (c : Candle)
    (h : s.time_desc = none) :
    (s.push_ok_state c).time_desc =
      if (s.open_times ++ [c.open_time]).length > 1 then
        some (decide ((s.open_times ++ [c.open_time]).getD 0 0 >
          (s.open_times ++ [c.open_time]).getD 1 0))
      else none := by
  unfold Candles.push_ok_state
  rw [detect_time_desc_of_none (by simp [h])]
  simp

theorem push_ok_state_resolution_of_some {s : Candles} {r : Resolution} (c : Candle)
    (h : s.resolution = some r) : (s.push_ok_state c).resolution = some r := by
  unfold Candles.push_ok_state
  rw [detect_time_desc_resolution]
  exact detect_resolution_of_some (by simp [h])

theorem push_ok_state_resolution_of_none {s : Candles} (c : Candle)
    (h : s.resolution = none) :
    (s.push_ok_state c).resolution =
      if (s.open_times ++ [c.open_time]).length ≥ 2 then
        Resolution.from_seconds (num_seconds ((s.open_times ++ [c.open_time]).getD 0 0 -
          (s.open_times ++ [c.open_time]).getD 1 0))
      else none := by
  unfold Candles.push_ok_state
  rw [detect_time_desc_resolution]
  rw [detect_resolution_of_none (by simp [h])]
  simp

/-! ## Helper lemmas: the `Resolution` conversion table -/

theorem from_seconds_to_seconds (r : Resolution) :
    Resolution.from_seconds r.to_seconds = some r := by
  cases r <;> rfl

theorem from_seconds_eq_none_iff (n : Int) :
    Resolution.from_seconds n = none ↔ ∀ r : Resolution, r.to_seconds ≠ n := by
  constructor
  · intro h r hr
    rw [← hr, from_seconds_to_seconds] at h
    exact Option.noConfusion h
  · intro h
    unfold Resolution.from_seconds
    rw [if_neg (fun hn => h Resolution.M1 (by rw [hn]; rfl))]
    rw [if_neg (fun hn => h Resolution.M5 (by rw [hn]; rfl))]
    rw [if_neg (fun hn => h Resolution.M15 (by rw [hn]; rfl))]
    rw [if_neg (fun hn => h Resolution.M30 (by rw [hn]; rfl))]
    rw [if_neg (fun hn => h Resolution.H1 (by rw [hn]; rfl))]
    rw [if_neg (fun hn => h Resolution.H4 (by rw [hn]; rfl))]
    rw [if_neg (fun hn => h Resolution.D1 (by rw [hn]; rfl))]
    rw [if_neg (fun hn => h Resolution.W1 (by rw [hn]; rfl))]

theorem from_seconds_nonpos {n : Int} (h : n ≤ 0) : Resolution.from_seconds n = none := by
  rw [from_seconds_eq_none_iff]
  intro r hr
  cases r <;> simp [Resolution.to_seconds] at hr <;> omega

theorem num_seconds_nonpos {d : Int} (h : d < 0) : num_seconds d ≤ 0 := by
  unfold num_seconds
  have h1 : 0 ≤ Int.tdiv (-d) 1000 := Int.tdiv_nonneg (by omega) (by norm_num)
  rw [Int.neg_tdiv] at h1
  omega

/-! ## Helper lemmas: single `push_candle` steps -/

theorem push_candle_error_eq {s : Candles} {c : Candle} {e : HkError}
    (h : (s.push_candle c).1 = some e) : (s.push_candle c).2 = s := by
  rcases hd : s.time_desc with _ | d
  · rw [push_candle_of_none c hd] at h ⊢
    split at h
    · rw [if_pos (by assumption)]
    · exact Option.noConfusion h
  · cases d
    · rw [push_candle_of_asc c hd] at h ⊢
      split at h
      · rw [if_pos (by assumption)]
      · exact Option.noConfusion h
    · rw [push_candle_of_desc c hd] at h ⊢
      split at h
      · rw [if_pos (by assumption)]
      · exact Option.noConfusion h

theorem push_candle_snd_cases (s : Candles) (c : Candle) :
    (s.push_candle c).2 = s ∨ (s.push_candle c).2 = s.push_ok_state c := by
  rcases hd : s.time_desc with _ | d
  · rw [push_candle_of_none c hd]
    split
    · exact Or.inl rfl
    · exact Or.inr rfl
  · cases d
    · rw [push_candle_of_asc c hd]
      split
      · exact Or.inl rfl
      · exact Or.inr rfl
    · rw [push_candle_of_desc c hd]
      split
      · exact Or.inl rfl
      · exact Or.inr rfl

theorem push_candle_time_desc_some {s : Candles} {d : Bool} (c : Candle)
    (h : s.time_desc = some d) : ((s.push_candle c).2).time_desc = some d := by
  rcases push_candle_snd_cases s c with h2 | h2 <;> rw [h2]
  · exact h
  · exact push_ok_state_time_desc_of_some c h

theorem push_candle_sameLengths {s : Candles} (c : Candle)
    (h : s.sameLengths) : ((s.push_candle c).2).sameLengths := by
  rcases push_candle_snd_cases s c with h2 | h2 <;> rw [h2]
  · exact h
  · obtain ⟨h1, h2, h3, h4, h5, h6⟩ := h
    refine ⟨?_, ?_, ?_, ?_, ?_, ?_⟩ <;>
      simp [Candles.push_ok_state, h1, h2, h3, h4, h5, h6]

/-! ## The reachability invariant: what the cached facts always look like -/

/-- For any series reachable from `Candles::new()` by `push_candle` calls, the
two cached facts are exactly the values the two detection passes compute from
the first two timestamps (and are still unset while fewer than two rows
exist). -/
def Candles.Inv (s : Candles) : Prop :=
  (s.time_desc =
    if 1 < s.open_times.length then
      some (decide (s.open_times.getD 0 0 > s.open_times.getD 1 0))
    else none) ∧
  (s.resolution =
    if 2 ≤ s.open_times.length then
      Resolution.from_seconds (num_seconds
        (s.open_times.getD 0 0 - s.open_times.getD 1 0))
    else none)

theorem new_Inv : Candles.new.Inv := ⟨rfl, rfl⟩

theorem push_candle_Inv {s : Candles} (c : Candle) (h : s.Inv) :
    ((s.push_candle c).2).Inv := by
  obtain ⟨ht, hr⟩ := h
  rcases hd : s.time_desc with _ | d
  · -- direction still unknown: the invariant forces at most one row
    rw [hd] at ht
    have hlen : s.open_times.length ≤ 1 := by
      by_contra hgt
      rw [if_pos (by omega)] at ht
      exact Option.noConfusion ht
    rw [push_candle_of_none c hd, if_neg (by omega)]
    have hr0 : s.resolution = none := by
      rw [if_neg (by omega)] at hr
      exact hr
    rcases Nat.le_one_iff_eq_zero_or_eq_one.mp hlen with h0 | h1
    · obtain hnil := List.length_eq_zero.mp h0
      constructor
      · rw [push_ok_state_time_desc_of_none c hd, push_ok_state_open_times,
          hnil]
      · rw [push_ok_state_resolution_of_none c hr0, push_ok_state_open_times,
          hnil]
    · obtain ⟨a, ha⟩ := List.length_eq_one.mp h1
      constructor
      · rw [push_ok_state_time_desc_of_none c hd, push_ok_state_open_times,
          ha]
      · rw [push_ok_state_resolution_of_none c hr0, push_ok_state_open_times,
          ha]
  · -- direction already determined: the invariant forces at least two rows
    rw [hd] at ht
    have hlen : 1 < s.open_times.length := by
      by_contra hle
      rw [if_neg hle] at ht
      exact Option.noConfusion ht
    rw [if_pos hlen] at ht
    have hg0 : (s.open_times ++ [c.open_time]).getD 0 0 = s.open_times.getD 0 0 :=
      List.getD_append _ _ _ _ (by omega)
    have hg1 : (s.open_times ++ [c.open_time]).getD 1 0 = s.open_times.getD 1 0 :=
      List.getD_append _ _ _ _ (by omega)
    have hInv2 : (s.push_ok_state c).Inv := by
      constructor
      · rw [push_ok_state_time_desc_of_some c hd, push_ok_state_open_times,
          if_pos (by simp; omega), hg0, hg1, ht]
      · rcases hres : s.resolution with _ | r
        · rw [push_ok_state_resolution_of_none c hres, push_ok_state_open_times,
            if_pos (by simp; omega)]
        · rw [push_ok_state_resolution_of_some c hres, push_ok_state_open_times,
            if_pos (by simp; omega), hg0, hg1]
          rw [hres, if_pos (by omega)] at hr
          exact hr
    rcases push_candle_snd_cases s c with h2 | h2 <;> rw [h2]
    · exact ⟨by rw [hd, if_pos hlen, ht], by rw [hr]⟩
    · exact hInv2

theorem push_candle_getD01 {s : Candles} (c : Candle) (h : 2 ≤ s.open_times.length) :
    ((s.push_candle c).2).open_times.getD 0 0 = s.open_times.getD 0 0 ∧
    ((s.push_candle c).2).open_times.getD 1 0 = s.open_times.getD 1 0 ∧
    2 ≤ ((s.push_candle c).2).open_times.length := by
  rcases push_candle_snd_cases s c with h2 | h2 <;> rw [h2]
  · exact ⟨rfl, rfl, h⟩
  · rw [push_ok_state_open_times]
    exact ⟨List.getD_append _ _ _ _ (by omega),
      List.getD_append _ _ _ _ (by omega), by simp; omega⟩

theorem push_candle_resolution_stable {s : Candles} (c : Candle) (hI : s.Inv)
    (h2 : 2 ≤ s.open_times.length) :
    ((s.push_candle c).2).resolution = s.resolution := by
  have hI' := push_candle_Inv c hI
  obtain ⟨hg0, hg1, hlen⟩ := push_candle_getD01 c h2
  rw [hI'.2, hI.2, if_pos hlen, if_pos h2, hg0, hg1]

@[simp]
theorem run_pushes_nil (s : Candles) : s.run_pushes [] = s := rfl

@[simp]
theorem run_pushes_cons (s : Candles) (c : Candle) (cs : List Candle) :
    s.run_pushes (c :: cs) = ((s.push_candle c).2).run_pushes cs := rfl

theorem run_pushes_time_desc_some {s : Candles} {d : Bool} (ds : List Candle)
    (h : s.time_desc = some d) : (s.run_pushes ds).time_desc = some d := by
  induction ds generalizing s with
  | nil => exact h
  | cons c cs ih => exact ih (push_candle_time_desc_some c h)

theorem run_pushes_sameLengths {s : Candles} (ds : List Candle)
    (h : s.sameLengths) : (s.run_pushes ds).sameLengths := by
  induction ds generalizing s with
  | nil => exact h
  | cons c cs ih => exact ih (push_candle_sameLengths c h)

theorem run_pushes_Inv {s : Candles} (ds : List Candle) (h : s.Inv) :
    (s.run_pushes ds).Inv := by
  induction ds generalizing s with
  | nil => exact h
  | cons c cs ih => exact ih (push_candle_Inv c h)

theorem run_pushes_resolution_stable {s : Candles} (ds : List Candle) (hI : s.Inv)
    (h2 : 2 ≤ s.open_times.length) :
    (s.run_pushes ds).resolution = s.resolution := by
  induction ds generalizing s with
  | nil => rfl
  | cons c cs ih =>
    rw [run_pushes_cons, ih (push_candle_Inv c hI) (push_candle_getD01 c h2).2.2,
      push_candle_resolution_stable c hI h2]

theorem new_sameLengths : Candles.new.sameLengths :=
  ⟨rfl, rfl, rfl, rfl, rfl, rfl⟩

theorem run_candles_Inv (cs : List Candle) : (run_candles cs).Inv :=
  run_pushes_Inv cs new_Inv

/-! ## Claim C1 -/

/-- C1: `push_candle` returns an error if and only if either (a) the direction
is determined (`time_desc = some d`), the series is non-empty, and the
candle's timestamp differs from the boundary timestamp (index 0 when
Descending, the last index when Ascending), or (b) the direction is still
unknown and the series already holds at least 2 candles; in case (a) the error
is the not-contiguous kind for that direction and in case (b) the
direction-indeterminate kind, and in every other case the append succeeds. -/
theorem push_candle_error_iff (s : Candles) (c : Candle) (e : HkError) :
    (s.push_candle c).1 = some e ↔
      ((∃ d, s.time_desc = some d ∧ s.open_times ≠ [] ∧
          s.boundary_time d ≠ c.open_time ∧ e = not_contiguous_error d) ∨
        (s.time_desc = none ∧ 2 ≤ s.open_times.length ∧
          e = direction_indeterminate_error)) := by
  rcases hd : s.time_desc with _ | d
  · rw [push_candle_of_none c hd]
    by_cases h2 : 2 ≤ s.open_times.length
    · rw [if_pos h2]
      constructor
      · intro h
        have he : some direction_indeterminate_error = some e := h
        exact Or.inr ⟨rfl, h2, (Option.some.inj he).symm⟩
      · rintro (⟨d', hd', _, _, _⟩ | ⟨_, _, he⟩)
        · exact Option.noConfusion hd'
        · rw [he]
          rfl
    · rw [if_neg h2]
      constructor
      · intro h
        exact Option.noConfusion h
      · rintro (⟨d', hd', _, _, _⟩ | ⟨_, h2', _⟩)
        · exact Option.noConfusion hd'
        · exact absurd h2' h2
  · cases d
    · rw [push_candle_of_asc c hd]
      by_cases hc : s.open_times.length > 0 ∧
          s.open_times.getD (s.open_times.length - 1) 0 - c.open_time ≠ 0
      · rw [if_pos hc]
        constructor
        · intro h
          have he : some (HkError.HkDataError "") = some e := h
          exact Or.inl ⟨false, rfl, List.length_pos.mp hc.1,
            sub_ne_zero.mp hc.2, (Option.some.inj he).symm⟩
        · rintro (⟨d', hd', _, _, he⟩ | ⟨hn, _, _⟩)
          · obtain rfl : d' = false := (Option.some.inj hd').symm
            rw [he]
            rfl
          · exact Option.noConfusion hn
      · rw [if_neg hc]
        constructor
        · intro h
          exact Option.noConfusion h
        · rintro (⟨d', hd', hne, hb, _⟩ | ⟨hn, _, _⟩)
          · obtain rfl : d' = false := (Option.some.inj hd').symm
            exact absurd ⟨List.length_pos.mpr hne, sub_ne_zero.mpr hb⟩ hc
          · exact Option.noConfusion hn
    · rw [push_candle_of_desc c hd]
      by_cases hc : s.open_times.length > 0 ∧ s.open_times.getD 0 0 - c.open_time ≠ 0
      · rw [if_pos hc]
        constructor
        · intro h
          have he : some HkError.InvalidParameter = some e := h
          exact Or.inl ⟨true, rfl, List.length_pos.mp hc.1,
            sub_ne_zero.mp hc.2, (Option.some.inj he).symm⟩
        · rintro (⟨d', hd', _, _, he⟩ | ⟨hn, _, _⟩)
          · obtain rfl : d' = true := (Option.some.inj hd').symm
            rw [he]
            rfl
          · exact Option.noConfusion hn
      · rw [if_neg hc]
        constructor
        · intro h
          exact Option.noConfusion h
        · rintro (⟨d', hd', hne, hb, _⟩ | ⟨hn, _, _⟩)
          · obtain rfl : d' = true := (Option.some.inj hd').symm
            exact absurd ⟨List.length_pos.mpr hne, sub_ne_zero.mpr hb⟩ hc
          · exact Option.noConfusion hn

/-! ## Claim C2 -/

/-- C2: for every sequence of `push_candle` calls starting from
`Candles::new()`, after each call (success or failure) the seven column
sequences have the same length (quantifying over all call sequences covers
every intermediate state). -/
theorem run_candles_sameLengths (cs : List Candle) : (run_candles cs).sameLengths :=
  run_pushes_sameLengths cs new_sameLengths

/-! ## Claim C3 -/

/-- C3: whenever `push_candle` returns an error, the series is left completely
unmodified: all seven columns, the cached time direction and the cached
resolution are exactly as they were before the call. -/
theorem push_candle_error_leaves_series_unchanged (s : Candles) (c : Candle)
    (e : HkError) (h : (s.push_candle c).1 = some e) :
    (s.push_candle c).2.open_times = s.open_times ∧
    (s.push_candle c).2.opens = s.opens ∧
    (s.push_candle c).2.highs = s.highs ∧
    (s.push_candle c).2.lows = s.lows ∧
    (s.push_candle c).2.closes = s.closes ∧
    (s.push_candle c).2.volumes = s.volumes ∧
    (s.push_candle c).2.trade_count = s.trade_count ∧
    (s.push_candle c).2.time_desc = s.time_desc ∧
    (s.push_candle c).2.resolution = s.resolution := by
  rw [push_candle_error_eq h]
  exact ⟨rfl, rfl, rfl, rfl, rfl, rfl, rfl, rfl, rfl⟩

/-- Witness for C3: a concrete failing append (Descending series, mismatching
timestamp) leaves the concrete series unchanged. -/
theorem push_candle_error_leaves_series_unchanged_witness :
    ((run_candles [mkCandle 100000, mkCandle 90000]).push_candle (mkCandle 50000)).1
      = some HkError.InvalidParameter ∧
    ((run_candles [mkCandle 100000, mkCandle 90000]).push_candle (mkCandle 50000)).2.open_times
      = (run_candles [mkCandle 100000, mkCandle 90000]).open_times :=
  ⟨by decide,
   (push_candle_error_leaves_series_unchanged
     (run_candles [mkCandle 100000, mkCandle 90000]) (mkCandle 50000)
     HkError.InvalidParameter (by decide)).1⟩

/-! ## Claim C4 -/

/-- C4: once `time_desc` holds a definite direction it holds that same
direction after every later sequence of calls, and once at least two rows
exist (so the resolution detection has run) the observable `resolution` value
never changes on any later call, successful or failing. -/
theorem direction_resolution_stable (cs ds : List Candle) (d : Bool) :
    ((run_candles cs).time_desc = some d →
      ((run_candles cs).run_pushes ds).time_desc = some d) ∧
    (2 ≤ (run_candles cs).open_times.length →
      ((run_candles cs).run_pushes ds).resolution = (run_candles cs).resolution) :=
  ⟨fun h => run_pushes_time_desc_some ds h,
   fun h2 => run_pushes_resolution_stable ds (run_candles_Inv cs) h2⟩

/-! ## Claim C5 -/

/-- Counterexample to C5: after appending candles at `T=0` and `T=60`
(seconds epoch), the third append at `T=120` does not succeed — it fails with
the Ascending continuity error — and the resolution is `none`, not
`Known(M1)`: `detect_resolution` looks up the signed gap `0 - 60 = -60`
seconds, which matches no catalog entry. -/
theorem scenarioB_counterexample :
    ((run_candles [mkCandle 0, mkCandle 60000]).push_candle (mkCandle 120000)).1
      = some (HkError.HkDataError "") ∧
    (run_candles [mkCandle 0, mkCandle 60000]).resolution = none := by
  decide

/-- C5 (amended): appending candles at `T=0` and `T=60` succeeds and yields
direction Ascending (`time_desc = some false`), but the resolution stays
`none` (the signed gap `entry0 - entry1 = -60` seconds is looked up, not the
absolute gap, and matches no catalog entry); the third append at `T=120`
fails with the Ascending not-contiguous error, since only a candle repeating
the tail boundary timestamp `T=60` is accepted — such a duplicate append
succeeds. -/
theorem scenarioB_amended :
    (Candles.new.push_candle (mkCandle 0)).1 = none ∧
    ((Candles.new.push_candle (mkCandle 0)).2.push_candle (mkCandle 60000)).1 = none ∧
    (run_candles [mkCandle 0, mkCandle 60000]).time_desc = some false ∧
    (run_candles [mkCandle 0, mkCandle 60000]).resolution = none ∧
    ((run_candles [mkCandle 0, mkCandle 60000]).push_candle (mkCandle 120000)).1
      = some (not_contiguous_error false) ∧
    ((run_candles [mkCandle 0, mkCandle 60000]).push_candle (mkCandle 60000)).1 = none := by
  decide

/-! ## Claim C6 -/

/-- C6: for every two candles with identical timestamps appended first to a
fresh series, both appends succeed and the strict `>` comparison makes the
direction Ascending (`time_desc = some false`) — not unknown and not an
error. -/
theorem equal_timestamps_ascending (c1 c2 : Candle)
    (h : c1.open_time = c2.open_time) :
    (Candles.new.push_candle c1).1 = none ∧
    ((Candles.new.push_candle c1).2.push_candle c2).1 = none ∧
    (run_candles [c1, c2]).time_desc = some false := by
  refine ⟨rfl, rfl, ?_⟩
  have key : (run_candles [c1, c2]).time_desc
      = some (decide (c1.open_time > c2.open_time)) := rfl
  rw [key, h, decide_eq_false (lt_irrefl c2.open_time)]

/-- Witness for C6: the equal-timestamp pair at `T=100` seconds epoch. -/
theorem equal_timestamps_ascending_witness :
    (mkCandle 100000).open_time = (mkCandle 100000).open_time ∧
    (run_candles [mkCandle 100000, mkCandle 100000]).time_desc = some false :=
  ⟨rfl, (equal_timestamps_ascending (mkCandle 100000) (mkCandle 100000) rfl).2.2⟩

/-! ## Claim C7 -/

/-- Counterexample to C7: on a concrete Descending series a continuity
violation returns `HkError::InvalidParameter`, not the generic data error
with an empty message; the claim has the two error kinds swapped. -/
theorem error_kind_counterexample :
    (run_candles [mkCandle 100000, mkCandle 90000]).time_desc = some true ∧
    ((run_candles [mkCandle 100000, mkCandle 90000]).push_candle (mkCandle 50000)).1
      = some HkError.InvalidParameter ∧
    HkError.InvalidParameter ≠ HkError.HkDataError "" := by
  decide

/-- C7 (amended): a continuity violation under Descending direction returns
`HkError::InvalidParameter`, while a continuity violation under Ascending
direction returns the generic data error with an empty message
(`HkDataError ""`) — the opposite assignment of the one claimed. -/
theorem push_candle_not_contiguous_kind (s : Candles) (c : Candle) (d : Bool)
    (hdir : s.time_desc = some d) (hne : s.open_times ≠ [])
    (hmis : s.boundary_time d ≠ c.open_time) :
    (s.push_candle c).1 = some (not_contiguous_error d) := by
  cases d
  · rw [push_candle_of_asc c hdir,
      if_pos ⟨List.length_pos.mpr hne, sub_ne_zero.mpr hmis⟩]
    rfl
  · rw [push_candle_of_desc c hdir,
      if_pos ⟨List.length_pos.mpr hne, sub_ne_zero.mpr hmis⟩]
    rfl

/-- Witness for C7 (amended): the concrete Descending violation above returns
exactly `not_contiguous_error true = InvalidParameter`. -/
theorem push_candle_not_contiguous_kind_witness :
    (run_candles [mkCandle 100000, mkCandle 90000]).time_desc = some true ∧
    ((run_candles [mkCandle 100000, mkCandle 90000]).push_candle (mkCandle 50000)).1
      = some (not_contiguous_error true) :=
  ⟨by decide,
   push_candle_not_contiguous_kind _ _ true (by decide) (by decide) (by decide)⟩

/-! ## Claim C8 -/

/-- C8: `from_seconds` inverts `to_seconds` on every catalog variant, and
returns `none` exactly on the integers that are no variant's second count —
in particular on 61 (exact matches only, no tolerance). -/
theorem resolution_seconds_round_trip :
    (∀ r : Resolution, Resolution.from_seconds r.to_seconds = some r) ∧
    Resolution.from_seconds 61 = none ∧
    (∀ n : Int, Resolution.from_seconds n = none ↔
      ∀ r : Resolution, r.to_seconds ≠ n) :=
  ⟨from_seconds_to_seconds, by decide, from_seconds_eq_none_iff⟩

/-! ## Claim C9 -/

/-- C9: for every series whose first two appended candles have strictly
increasing timestamps (an Ascending series), `resolution` is `none` after
every later call, forever: `detect_resolution` looks up the signed difference
`open_times[0] - open_times[1]`, which is negative here, and `from_seconds`
matches only the positive catalog values. -/
theorem ascending_resolution_none (c1 c2 : Candle) (rest : List Candle)
    (h : c1.open_time < c2.open_time) :
    (run_candles (c1 :: c2 :: rest)).resolution = none := by
  have key : run_candles (c1 :: c2 :: rest) =
      Candles.run_pushes ((Candles.new.push_candle c1).2.push_candle c2).2 rest := rfl
  have hres : (((Candles.new.push_candle c1).2.push_candle c2).2).resolution =
      Resolution.from_seconds (num_seconds (c1.open_time - c2.open_time)) := rfl
  have hlen : (((Candles.new.push_candle c1).2.push_candle c2).2).open_times.length = 2 := rfl
  have hInv : (((Candles.new.push_candle c1).2.push_candle c2).2).Inv :=
    push_candle_Inv c2 (push_candle_Inv c1 new_Inv)
  rw [key, run_pushes_resolution_stable rest hInv (by rw [hlen]), hres]
  exact from_seconds_nonpos (num_seconds_nonpos (by omega))

/-- Witness for C9: the concrete ascending pair `T=0`, `T=60` (seconds epoch)
leaves the resolution at `none`. -/
theorem ascending_resolution_none_witness :
    (mkCandle 0).open_time < (mkCandle 60000).open_time ∧
    (run_candles [mkCandle 0, mkCandle 60000]).resolution = none :=
  ⟨by decide, ascending_resolution_none (mkCandle 0) (mkCandle 60000) [] (by decide)⟩

/-! ## Claim C10 -/

/-- C10: each public per-column setter replaces only its own column and leaves
the other six columns and both cached facts unchanged; consequently a
`set_open_times` call with a vector of a different length breaks invariant I1
(witnessed on the empty series with a one-element vector). -/
theorem setters_frame_and_break_I1 :
    (∀ (s : Candles) (v : List Int),
      (s.set_open_times v).open_times = v ∧
      (s.set_open_times v).opens = s.opens ∧
      (s.set_open_times v).highs = s.highs ∧
      (s.set_open_times v).lows = s.lows ∧
      (s.set_open_times v).closes = s.closes ∧
      (s.set_open_times v).volumes = s.volumes ∧
      (s.set_open_times v).trade_count = s.trade_count ∧
      (s.set_open_times v).time_desc = s.time_desc ∧
      (s.set_open_times v).resolution = s.resolution) ∧
    (∀ (s : Candles) (v : List Float),
      (s.set_opens v).opens = v ∧
      (s.set_opens v).open_times = s.open_times ∧
      (s.set_opens v).highs = s.highs ∧
      (s.set_opens v).lows = s.lows ∧
      (s.set_opens v).closes = s.closes ∧
      (s.set_opens v).volumes = s.volumes ∧
      (s.set_opens v).trade_count = s.trade_count ∧
      (s.set_opens v).time_desc = s.time_desc ∧
      (s.set_opens v).resolution = s.resolution) ∧
    (∀ (s : Candles) (v : List Float),
      (s.set_highs v).highs = v ∧
      (s.set_highs v).open_times = s.open_times ∧
      (s.set_highs v).opens = s.opens ∧
      (s.set_highs v).lows = s.lows ∧
      (s.set_highs v).closes = s.closes ∧
      (s.set_highs v).volumes = s.volumes ∧
      (s.set_highs v).trade_count = s.trade_count ∧
      (s.set_highs v).time_desc = s.time_desc ∧
      (s.set_highs v).resolution = s.resolution) ∧
    (∀ (s : Candles) (v : List Float),
      (s.set_lows v).lows = v ∧
      (s.set_lows v).open_times = s.open_times ∧
      (s.set_lows v).opens = s.opens ∧
      (s.set_lows v).highs = s.highs ∧
      (s.set_lows v).closes = s.closes ∧
      (s.set_lows v).volumes = s.volumes ∧
      (s.set_lows v).trade_count = s.trade_count ∧
      (s.set_lows v).time_desc = s.time_desc ∧
      (s.set_lows v).resolution = s.resolution) ∧
    (∀ (s : Candles) (v : List Float),
      (s.set_closes v).closes = v ∧
      (s.set_closes v).open_times = s.open_times ∧
      (s.set_closes v).opens = s.opens ∧
      (s.set_closes v).highs = s.highs ∧
      (s.set_closes v).lows = s.lows ∧
      (s.set_closes v).volumes = s.volumes ∧
      (s.set_closes v).trade_count = s.trade_count ∧
      (s.set_closes v).time_desc = s.time_desc ∧
      (s.set_closes v).resolution = s.resolution) ∧
    (∀ (s : Candles) (v : List (Option Float)),
      (s.set_volumes v).volumes = v ∧
      (s.set_volumes v).open_times = s.open_times ∧
      (s.set_volumes v).opens = s.opens ∧
      (s.set_volumes v).highs = s.highs ∧
      (s.set_volumes v).lows = s.lows ∧
      (s.set_volumes v).closes = s.closes ∧
      (s.set_volumes v).trade_count = s.trade_count ∧
      (s.set_volumes v).time_desc = s.time_desc ∧
      (s.set_volumes v).resolution = s.resolution) ∧
    ¬ (Candles.new.set_open_times [0]).sameLengths :=
  ⟨fun s v => ⟨rfl, rfl, rfl, rfl, rfl, rfl, rfl, rfl, rfl⟩,
   fun s v => ⟨rfl, rfl, rfl, rfl, rfl, rfl, rfl, rfl, rfl⟩,
   fun s v => ⟨rfl, rfl, rfl, rfl, rfl, rfl, rfl, rfl, rfl⟩,
   fun s v => ⟨rfl, rfl, rfl, rfl, rfl, rfl, rfl, rfl, rfl⟩,
   fun s v => ⟨rfl, rfl, rfl, rfl, rfl, rfl, rfl, rfl, rfl⟩,
   fun s v => ⟨rfl, rfl, rfl, rfl, rfl, rfl, rfl, rfl, rfl⟩,
   by decide⟩

end HkTrading
